import Mathlib

/-!
Verification development for the CYW43907 TCP-server example
(`src/tcp_server.c`). The C program is shallowly embedded: each
callback and each iteration of the worker loop becomes a pure Lean
function from the relevant global state (the three globals
`led_state`, `client_connected`, `client_handle`, plus `peer_addr`)
and the outcomes of the external socket/GPIO calls to a new state, a
list of emitted side-effect actions, and the returned `cy_rslt_t`
code. Library constants whose numeric values are not in the sources
(`CY_RSLT_SUCCESS`, `CY_RSLT_MODULE_SECURE_SOCKETS_CLOSED`, other
error codes) are modelled as an inductive result type with decidable
equality, which is all the C code observes of them.
-/

/-! ## Constants from tcp_server.c -/

/-- `#define MAX_TCP_RECV_BUFFER_SIZE (20u)` (tcp_server.c line 97). -/
def MAX_TCP_RECV_BUFFER_SIZE : Nat := 20

/-- `#define TCP_LED_CMD_LEN (1)` (tcp_server.c line 105). -/
def TCP_LED_CMD_LEN : Nat := 1

/-- `#define LED_ON_CMD '1'` (tcp_server.c line 108), byte value 49. -/
def LED_ON_CMD : Nat := 49

/-- `#define LED_OFF_CMD '0'` (tcp_server.c line 109), byte value 48. -/
def LED_OFF_CMD : Nat := 48

/-- `#define DEBOUNCE_DELAY_MS (50)` (tcp_server.c line 115). -/
def DEBOUNCE_DELAY_MS : Nat := 50

/-- `#define TCP_SERVER_PORT (50007)` (tcp_server.c line 94). -/
def TCP_SERVER_PORT : Nat := 50007

/-- `#define TCP_KEEP_ALIVE_IDLE_TIME_MS (10000u)` (tcp_server.c line 100). -/
def TCP_KEEP_ALIVE_IDLE_TIME_MS : Nat := 10000

/-- `#define TCP_KEEP_ALIVE_INTERVAL_MS (1000u)` (tcp_server.c line 101). -/
def TCP_KEEP_ALIVE_INTERVAL_MS : Nat := 1000

/-- `#define TCP_KEEP_ALIVE_RETRY_COUNT (2u)` (tcp_server.c line 102). -/
def TCP_KEEP_ALIVE_RETRY_COUNT : Nat := 2

/-! ## Result codes and side-effect actions -/

/-- The `cy_rslt_t` values the program distinguishes: `CY_RSLT_SUCCESS`,
`CY_RSLT_MODULE_SECURE_SOCKETS_CLOSED`, and any other error code
(carried abstractly as a natural number). The C code only ever compares
result values against these two named constants. -/
inductive CyRslt where
  | success
  | socketsClosed
  | err (code : Nat)
deriving DecidableEq, Repr

/-- Side effects the embedded code emits, in program order: GPIO event
enable/disable, the debounce delay, socket send/disconnect/delete on a
handle, and the various `printf` status lines. -/
inductive Effect where
  | enableButtonIrq (enable : Bool)
  | debounceDelay
  | send (handle : Nat) (cmd : Nat)
  | logSendOk (cmd : Nat)
  | logSendFail (code : CyRslt)
  | socketDisconnect (handle : Nat)
  | socketDelete (handle : Nat)
  | logAccepted
  | logAcceptFail (code : CyRslt)
  | logKaConfigFail
  | logRecvOk
  | logRecvFail (code : CyRslt)
  | logClientDisconnected
deriving DecidableEq, Repr

/-! ## Global state -/

/-- The mutable globals of tcp_server.c that the claims concern:
`bool led_state` (line 143, modelled with `CYBSP_LED_STATE_ON = true`,
`CYBSP_LED_STATE_OFF = false`), `bool client_connected` (line 149),
`cy_socket_t client_handle` and `cy_socket_sockaddr_t peer_addr`
(lines 136-137, handles and addresses modelled as naturals). -/
structure SysState where
  led_state : Bool
  client_connected : Bool
  client_handle : Nat
  peer_addr : Nat
deriving DecidableEq, Repr

/-- State at program start: both global `bool` flags zero-initialised
to false (`led_state = CYBSP_LED_STATE_OFF`, line 143). -/
def initState : SysState :=
  { led_state := false, client_connected := false, client_handle := 0, peer_addr := 0 }

/-! ## Receive-buffer model (tcp_receive_msg_handler, lines 621-664) -/

/-- `char message_buffer[MAX_TCP_RECV_BUFFER_SIZE] = {0}` (line 623):
the zero-initialised 20-byte buffer. -/
def initBuffer : List Nat := List.replicate MAX_TCP_RECV_BUFFER_SIZE 0

/-- Buffer contents after `cy_socket_recv` wrote `data.length` bytes of
`data` over the zero-initialised buffer (line 628): the received bytes
followed by the remaining zero bytes. -/
def afterRecv (data : List Nat) : List Nat :=
  data ++ List.replicate (MAX_TCP_RECV_BUFFER_SIZE - data.length) 0

/-- Buffer contents after `message_buffer[bytes_received] = 0` (line
634), with `bytes_received = data.length`. -/
def afterNullTerm (data : List Nat) : List Nat :=
  (afterRecv data).set data.length 0

/-- The C string stored in a byte buffer: the bytes before the first
NUL. `strcmp` against a NUL-free literal succeeds exactly when this
prefix equals the literal. -/
def cString (buf : List Nat) : List Nat :=
  buf.takeWhile (fun b => b != 0)

/-- The byte values of the literal `"LED ON ACK"` compared by `strcmp`
at line 638. -/
def LED_ON_ACK : List Nat := [76, 69, 68, 32, 79, 78, 32, 65, 67, 75]

/-- Outcome of the `cy_socket_recv` call at line 628: success with the
received bytes, or failure with an error code. -/
inductive RecvOutcome where
  | ok (data : List Nat)
  | fail (code : CyRslt)
deriving DecidableEq, Repr

/-- `tcp_receive_msg_handler` (tcp_server.c lines 621-664). On receive
success it NUL-terminates the buffer and sets `led_state` from
`strcmp(message_buffer, "LED ON ACK") == 0` (lines 634-645); on
failure it logs, and when the code is
`CY_RSLT_MODULE_SECURE_SOCKETS_CLOSED` it disconnects and deletes the
socket (lines 649-657). The globals other than `led_state` are never
written. Returns the new state, the emitted actions, and the
handler's `cy_rslt_t` result. -/
def tcp_receive_msg_handler (outcome : RecvOutcome) (s : SysState)
    (socket_handle : Nat) : SysState × List Effect × CyRslt :=
  match outcome with
  | RecvOutcome.ok data =>
      if cString (afterNullTerm data) = LED_ON_ACK then
        ({ s with led_state := true }, [Effect.logRecvOk], CyRslt.success)
      else
        ({ s with led_state := false }, [Effect.logRecvOk], CyRslt.success)
  | RecvOutcome.fail code =>
      if code = CyRslt.socketsClosed then
        (s, [Effect.logRecvFail code, Effect.socketDisconnect socket_handle,
             Effect.socketDelete socket_handle], code)
      else
        (s, [Effect.logRecvFail code], code)

/-! ## Disconnection handler (tcp_disconnection_handler, lines 680-700) -/

/-- `tcp_disconnection_handler` (tcp_server.c lines 680-700):
unconditionally disconnects and deletes the socket, sets
`client_connected = false`, logs, and sets
`led_state = CYBSP_LED_STATE_OFF`. `discRes` is the result the
underlying `cy_socket_disconnect` call returns (line 685); the handler
returns it. -/
def tcp_disconnection_handler (discRes : CyRslt) (s : SysState)
    (socket_handle : Nat) : SysState × List Effect × CyRslt :=
  ({ s with client_connected := false, led_state := false },
   [Effect.socketDisconnect socket_handle, Effect.socketDelete socket_handle,
    Effect.logClientDisconnected],
   discRes)

/-! ## Connection handler (tcp_connection_handler, lines 533-605) -/

/-- Outcomes of the external calls `tcp_connection_handler` makes:
the `cy_socket_accept` result together with the peer address and
client handle it yields on success (lines 544-545), and the results of
the four keep-alive `cy_socket_setsockopt` calls (interval, retry
count, idle time, enable; lines 554-586). -/
structure ConnEnv where
  acceptResult : CyRslt
  acceptHandle : Nat
  acceptPeer : Nat
  kaIntervalResult : CyRslt
  kaCountResult : CyRslt
  kaIdleResult : CyRslt
  kaEnableResult : CyRslt
deriving DecidableEq, Repr

/-- The result code of the first failing keep-alive configuration step,
in the order the handler performs them; `kaEnableResult` when the first
three succeed. -/
def firstKaFailure (env : ConnEnv) : CyRslt :=
  if env.kaIntervalResult ≠ CyRslt.success then env.kaIntervalResult
  else if env.kaCountResult ≠ CyRslt.success then env.kaCountResult
  else if env.kaIdleResult ≠ CyRslt.success then env.kaIdleResult
  else env.kaEnableResult

/-- `tcp_connection_handler` (tcp_server.c lines 533-605). On accept
success it stores the new peer address and client handle (the
out-parameters of `cy_socket_accept`, line 544), then performs the four
keep-alive configuration steps, returning the failing step's error
immediately on failure (lines 554-591); only after all four succeed
does it set `client_connected = true` (line 594). On accept failure it
logs and re-announces listening (lines 598-601), leaving state
unchanged. -/
def tcp_connection_handler (env : ConnEnv) (s : SysState) :
    SysState × List Effect × CyRslt :=
  if env.acceptResult = CyRslt.success then
    let s1 := { s with client_handle := env.acceptHandle, peer_addr := env.acceptPeer }
    if env.kaIntervalResult ≠ CyRslt.success then
      (s1, [Effect.logAccepted, Effect.logKaConfigFail], env.kaIntervalResult)
    else if env.kaCountResult ≠ CyRslt.success then
      (s1, [Effect.logAccepted, Effect.logKaConfigFail], env.kaCountResult)
    else if env.kaIdleResult ≠ CyRslt.success then
      (s1, [Effect.logAccepted, Effect.logKaConfigFail], env.kaIdleResult)
    else if env.kaEnableResult ≠ CyRslt.success then
      (s1, [Effect.logAccepted, Effect.logKaConfigFail], env.kaEnableResult)
    else
      ({ s1 with client_connected := true }, [Effect.logAccepted], CyRslt.success)
  else
    (s, [Effect.logAcceptFail env.acceptResult], env.acceptResult)

/-! ## Worker loop iteration (tcp_server_task, lines 248-298) -/

/-- One iteration of the `while(true)` loop of `tcp_server_task`
(tcp_server.c lines 248-298), entered after `xTaskNotifyWait` delivered
`led_state_cmd`. The iteration disables the button interrupt (line
256), waits the debounce delay (line 259), re-samples the pin
(`gpioRead` is the `cyhal_gpio_read` value; the branch is taken when it
is false, line 261), and if a client is connected sends the command
byte and inspects the send result (`sendResult`, lines 269-292): on
`CY_RSLT_MODULE_SECURE_SOCKETS_CLOSED` it disconnects and deletes the
client socket. Every path re-enables the interrupt at line 297. The
loop body writes none of the modelled globals, so the state is
returned unchanged together with the emitted actions. -/
def tcp_server_task_iteration (gpioRead : Bool) (sendResult : CyRslt)
    (led_state_cmd : Nat) (s : SysState) : SysState × List Effect :=
  if gpioRead = false then
    if s.client_connected then
      if sendResult = CyRslt.success then
        (s, [Effect.enableButtonIrq false, Effect.debounceDelay,
             Effect.send s.client_handle led_state_cmd,
             Effect.logSendOk led_state_cmd, Effect.enableButtonIrq true])
      else if sendResult = CyRslt.socketsClosed then
        (s, [Effect.enableButtonIrq false, Effect.debounceDelay,
             Effect.send s.client_handle led_state_cmd,
             Effect.logSendFail sendResult,
             Effect.socketDisconnect s.client_handle,
             Effect.socketDelete s.client_handle, Effect.enableButtonIrq true])
      else
        (s, [Effect.enableButtonIrq false, Effect.debounceDelay,
             Effect.send s.client_handle led_state_cmd,
             Effect.logSendFail sendResult, Effect.enableButtonIrq true])
    else
      (s, [Effect.enableButtonIrq false, Effect.debounceDelay,
           Effect.enableButtonIrq true])
  else
    (s, [Effect.enableButtonIrq false, Effect.debounceDelay,
         Effect.enableButtonIrq true])

/-! ## Notification channel and interrupt handler
(isr_button_press, lines 718-741) -/

/-- Modelled from the spec: the FreeRTOS task-notification slot used as
the Notification Channel. The FreeRTOS implementation of
`xTaskNotifyFromISR`/`xTaskNotifyWait` is not part of the sources; the
spec describes the channel as a single slot with set-without-overwrite
semantics (a pending unread value is preserved and a new post is
dropped), matching the `eSetValueWithoutOverwrite` action the call at
line 736 selects. `pending` is whether an unconsumed notification
exists; `value` is the notification value. -/
structure NotifySlot where
  pending : Bool
  value : Nat
deriving DecidableEq, Repr

/-- Modelled from the spec: `xTaskNotifyFromISR(.., v,
eSetValueWithoutOverwrite, ..)` as called at line 736. A pure total
function (it therefore cannot block the caller): when a notification is
already pending, the slot is unchanged and the new value is dropped
(returning false, the pdFAIL outcome); otherwise the value is stored
and the slot becomes pending (returning true). -/
def xTaskNotifyFromISR (slot : NotifySlot) (v : Nat) : NotifySlot × Bool :=
  if slot.pending then (slot, false)
  else ({ pending := true, value := v }, true)

/-- Modelled from the spec: the consuming side `xTaskNotifyWait` as
called at line 251. Returns the pending value and marks the slot
consumed; `none` models the worker blocking when nothing is pending. -/
def xTaskNotifyWait (slot : NotifySlot) : Option Nat × NotifySlot :=
  if slot.pending then (some slot.value, { slot with pending := false })
  else (none, slot)

/-- The command byte `isr_button_press` computes (tcp_server.c lines
726-733): `LED_OFF_CMD` when `led_state == CYBSP_LED_STATE_ON`, else
`LED_ON_CMD`. -/
def isr_button_press_cmd (led_state : Bool) : Nat :=
  if led_state then LED_OFF_CMD else LED_ON_CMD

/-- `isr_button_press` (tcp_server.c lines 718-741): computes the
command from the current `led_state` and posts it to the notification
slot with set-without-overwrite semantics (line 736). Returns the new
slot and the post outcome. -/
def isr_button_press (led_state : Bool) (slot : NotifySlot) : NotifySlot × Bool :=
  xTaskNotifyFromISR slot (isr_button_press_cmd led_state)

/-! ## Bounds model for the NUL-terminator write (claim C10) -/

/-- The buffer length argument the receive callback passes to
`cy_socket_recv` (tcp_server.c line 628): `MAX_TCP_RECV_BUFFER_SIZE`,
so the call may report up to that many received bytes. -/
def recvRequestLen : Nat := MAX_TCP_RECV_BUFFER_SIZE

/-- The index written by `message_buffer[bytes_received] = 0`
(tcp_server.c line 634). -/
def nullTermIndex (bytes_received : Nat) : Nat := bytes_received

/-- The declared size of `message_buffer` (tcp_server.c line 623). -/
def messageBufferSize : Nat := MAX_TCP_RECV_BUFFER_SIZE

/-! ## Concrete states and environments used in witnesses and counterexamples -/

/-- A state with a client connected on handle 1 and the LED flag off. -/
def connectedState : SysState :=
  { led_state := false, client_connected := true, client_handle := 1, peer_addr := 4 }

/-- A state with a client connected on handle 7 and the LED flag on. -/
def connLedOnState : SysState :=
  { led_state := true, client_connected := true, client_handle := 7, peer_addr := 4 }

/-- Call outcomes for a connection attempt in which the accept and all four
keep-alive steps succeed, yielding handle 2. -/
def envNewPeer : ConnEnv :=
  { acceptResult := CyRslt.success, acceptHandle := 2, acceptPeer := 9,
    kaIntervalResult := CyRslt.success, kaCountResult := CyRslt.success,
    kaIdleResult := CyRslt.success, kaEnableResult := CyRslt.success }

/-- Call outcomes for a connection attempt in which the accept succeeds but the
first keep-alive configuration step fails with error code 3. -/
def envKaFail : ConnEnv :=
  { acceptResult := CyRslt.success, acceptHandle := 5, acceptPeer := 9,
    kaIntervalResult := CyRslt.err 3, kaCountResult := CyRslt.success,
    kaIdleResult := CyRslt.success, kaEnableResult := CyRslt.success }

/-! ## Helper lemmas for the receive-buffer model -/

/-- Setting the element at index `l₁.length` of `l₁ ++ l₂` sets index 0 of `l₂`. -/
theorem set_append_len (l₁ l₂ : List Nat) (v : Nat) :
    (l₁ ++ l₂).set l₁.length v = l₁ ++ l₂.set 0 v := by
  induction l₁ with
  | nil => rfl
  | cons a t ih => simp [List.set, ih]

/-- takeWhile of nonzero bytes over a buffer that is the data followed by a
zero byte returns exactly the data, when the data itself has no zero byte. -/
theorem takeWhile_append_zero (data t : List Nat) (hz : ∀ x ∈ data, x ≠ 0) :
    (data ++ 0 :: t).takeWhile (fun b => b != 0) = data := by
  induction data with
  | nil => simp
  | cons a d ih =>
      have ha : a ≠ 0 := hz a (List.mem_cons_self a d)
      have hd : ∀ x ∈ d, x ≠ 0 := fun x hx => hz x (List.mem_cons_of_mem a hx)
      simp [ha, ih hd]

/-- For a NUL-free receive of fewer than `MAX_TCP_RECV_BUFFER_SIZE` bytes, the
C string in the NUL-terminated buffer is exactly the received data. -/
theorem cString_afterNullTerm (data : List Nat)
    (hlen : data.length < MAX_TCP_RECV_BUFFER_SIZE) (hz : ∀ x ∈ data, x ≠ 0) :
    cString (afterNullTerm data) = data := by
  have hk : 0 < MAX_TCP_RECV_BUFFER_SIZE - data.length := Nat.sub_pos_of_lt hlen
  obtain ⟨m, hm⟩ : ∃ m, MAX_TCP_RECV_BUFFER_SIZE - data.length = m + 1 :=
    ⟨MAX_TCP_RECV_BUFFER_SIZE - data.length - 1, by omega⟩
  unfold afterNullTerm afterRecv cString
  rw [hm, set_append_len]
  simp only [List.replicate_succ, List.set]
  exact takeWhile_append_zero data (List.replicate m 0) hz

/-! ## Claim theorems -/

/-- Claim C1, counterexample. From a state with a connected client and the LED
flag on, the worker send path and the receive callback, on detecting the
peer-closed error code, leave `client_connected = true` and `led_state = true`,
whereas the disconnect callback on the same state produces the cleared state
`client_connected = false`, `led_state = false`: the detecting paths do not
perform the registry release the claim asserts. -/
theorem peer_closed_paths_do_not_release :
    (tcp_server_task_iteration false CyRslt.socketsClosed LED_OFF_CMD
        connLedOnState).1.client_connected = true ∧
    (tcp_server_task_iteration false CyRslt.socketsClosed LED_OFF_CMD
        connLedOnState).1.led_state = true ∧
    (tcp_receive_msg_handler (RecvOutcome.fail CyRslt.socketsClosed)
        connLedOnState 7).1.client_connected = true ∧
    (tcp_receive_msg_handler (RecvOutcome.fail CyRslt.socketsClosed)
        connLedOnState 7).1.led_state = true ∧
    (tcp_disconnection_handler CyRslt.success connLedOnState 7).1.client_connected = false ∧
    (tcp_disconnection_handler CyRslt.success connLedOnState 7).1.led_state = false := by
  decide

/-- Claim C1 as amended: on detecting the peer-closed error code, each
detecting path (the worker send path and the receive callback) disconnects and
deletes the socket but performs no registry release: the globals
`client_connected`, `led_state`, `client_handle` are left unchanged; only the
disconnect callback produces the cleared state. -/
theorem peer_closed_detecting_paths_frame (s : SysState) (cmd : Nat) (hnd : Nat)
    (hconn : s.client_connected = true) :
    (tcp_server_task_iteration false CyRslt.socketsClosed cmd s).1 = s ∧
    Effect.socketDisconnect s.client_handle ∈
      (tcp_server_task_iteration false CyRslt.socketsClosed cmd s).2 ∧
    Effect.socketDelete s.client_handle ∈
      (tcp_server_task_iteration false CyRslt.socketsClosed cmd s).2 ∧
    (tcp_receive_msg_handler (RecvOutcome.fail CyRslt.socketsClosed) s hnd).1 = s ∧
    Effect.socketDisconnect hnd ∈
      (tcp_receive_msg_handler (RecvOutcome.fail CyRslt.socketsClosed) s hnd).2.1 ∧
    Effect.socketDelete hnd ∈
      (tcp_receive_msg_handler (RecvOutcome.fail CyRslt.socketsClosed) s hnd).2.1 := by
  unfold tcp_server_task_iteration tcp_receive_msg_handler
  simp [hconn]

/-- Claim C1 amended witness: the peer-closed frame facts at the concrete
connected state with the LED on, handle 7. -/
theorem peer_closed_detecting_paths_frame_witness :
    (tcp_server_task_iteration false CyRslt.socketsClosed LED_OFF_CMD connLedOnState).1 =
      connLedOnState :=
  (peer_closed_detecting_paths_frame connLedOnState LED_OFF_CMD 7 rfl).1

/-- Claim C2, counterexample. With a client already registered on handle 1
(`client_connected = true`), a connect-request whose underlying accept succeeds
with new handle 2 is not rejected: the handler returns success and the stored
peer handle is overwritten from 1 to 2, so the existing registration is not
kept unchanged and no failure is reported. -/
theorem connect_while_connected_not_rejected :
    connectedState.client_connected = true ∧
    connectedState.client_handle = 1 ∧
    (tcp_connection_handler envNewPeer connectedState).2.2 = CyRslt.success ∧
    (tcp_connection_handler envNewPeer connectedState).1.client_handle = 2 ∧
    (tcp_connection_handler envNewPeer connectedState).1.client_connected = true := by
  decide

/-- Claim C2 as amended: the connect-request handler performs no
already-connected check and has no AlreadyConnected failure; a connect request
arriving while a peer is registered is processed like any other: on a
successful underlying accept the stored peer handle and address are
overwritten with the new ones, the connection is logged as accepted, and the
registration remains marked connected. -/
theorem connect_overwrites_existing_peer (env : ConnEnv) (s : SysState)
    (hconn : s.client_connected = true)
    (hacc : env.acceptResult = CyRslt.success) :
    (tcp_connection_handler env s).1.client_handle = env.acceptHandle ∧
    (tcp_connection_handler env s).1.peer_addr = env.acceptPeer ∧
    (tcp_connection_handler env s).1.client_connected = true ∧
    Effect.logAccepted ∈ (tcp_connection_handler env s).2.1 := by
  unfold tcp_connection_handler
  split_ifs <;> simp_all

/-- Claim C2 amended witness: overwrite behavior at the concrete connected
state and the all-success accept environment. -/
theorem connect_overwrites_existing_peer_witness :
    (tcp_connection_handler envNewPeer connectedState).1.client_handle =
      envNewPeer.acceptHandle :=
  (connect_overwrites_existing_peer envNewPeer connectedState rfl rfl).1

/-- Claim C3, counterexample. From the initial state, accept succeeds but the
first keep-alive configuration step fails with error code 3: the handler
returns that error and `client_connected` remains false — the Connection
Registry does not record the peer as connected, so the accepted connection is
not usable by subsequent button presses. -/
theorem ka_failure_leaves_unconnected :
    (tcp_connection_handler envKaFail initState).1.client_connected = false ∧
    (tcp_connection_handler envKaFail initState).2.2 = CyRslt.err 3 ∧
    (tcp_server_task_iteration false CyRslt.success LED_ON_CMD
        (tcp_connection_handler envKaFail initState).1).2 =
      [Effect.enableButtonIrq false, Effect.debounceDelay, Effect.enableButtonIrq true] := by
  decide

/-- Claim C3 as amended: if any keep-alive configuration step fails after a
successful accept, the handler logs the failure and returns the failing step
error code before the connected flag is set: `client_connected` keeps its
prior value (false for a fresh connection), and the socket is not disconnected
or deleted; because the registry never records the peer, subsequent button
presses perform no send to it. -/
theorem ka_failure_early_return (env : ConnEnv) (s : SysState)
    (hacc : env.acceptResult = CyRslt.success)
    (hka : firstKaFailure env ≠ CyRslt.success) :
    (tcp_connection_handler env s).2.2 = firstKaFailure env ∧
    (tcp_connection_handler env s).1.client_connected = s.client_connected ∧
    (tcp_connection_handler env s).2.1 = [Effect.logAccepted, Effect.logKaConfigFail] := by
  unfold tcp_connection_handler firstKaFailure at *
  split_ifs at * <;> simp_all

/-- Claim C3 amended witness: early return at the concrete failing keep-alive
environment from the initial state. -/
theorem ka_failure_early_return_witness :
    (tcp_connection_handler envKaFail initState).2.2 = firstKaFailure envKaFail :=
  (ka_failure_early_return envKaFail initState rfl (by decide)).1

/-- Claim C4: for every successful receive of NUL-free text shorter than the
20-byte buffer, the handler sets the LED flag to true exactly when the
received bytes equal the literal LED ON ACK bytes, returns success, and emits
no error-path effect — any other content yields false via the same path. -/
theorem receive_sets_led_iff_ack (data : List Nat) (s : SysState) (hnd : Nat)
    (hlen : data.length < MAX_TCP_RECV_BUFFER_SIZE) (hz : ∀ x ∈ data, x ≠ 0) :
    ((tcp_receive_msg_handler (RecvOutcome.ok data) s hnd).1.led_state = true ↔
      data = LED_ON_ACK) ∧
    (tcp_receive_msg_handler (RecvOutcome.ok data) s hnd).2.2 = CyRslt.success ∧
    (tcp_receive_msg_handler (RecvOutcome.ok data) s hnd).2.1 = [Effect.logRecvOk] := by
  have h := cString_afterNullTerm data hlen hz
  simp only [tcp_receive_msg_handler, h]
  by_cases hd : data = LED_ON_ACK
  · simp [hd]
  · simp [hd]

/-- Claim C4 witness: receiving exactly the LED ON ACK bytes sets the LED flag. -/
theorem receive_sets_led_iff_ack_witness :
    (tcp_receive_msg_handler (RecvOutcome.ok LED_ON_ACK) initState 7).1.led_state = true :=
  (receive_sets_led_iff_ack LED_ON_ACK initState 7 (by decide) (by decide)).1.mpr rfl

/-- Claim C5: for every prior state and every socket handle, the disconnect
callback unconditionally disconnects and deletes the handle, clears
`client_connected` to false, and resets `led_state` to false. -/
theorem disconnect_handler_clears_all (r : CyRslt) (s : SysState) (hnd : Nat) :
    (tcp_disconnection_handler r s hnd).1.client_connected = false ∧
    (tcp_disconnection_handler r s hnd).1.led_state = false ∧
    (tcp_disconnection_handler r s hnd).2.1 =
      [Effect.socketDisconnect hnd, Effect.socketDelete hnd,
       Effect.logClientDisconnected] :=
  ⟨rfl, rfl, rfl⟩

/-- Claim C6: posting to the notification slot while a previous value is
pending is a no-op that returns immediately with the drop outcome: the
pending value is preserved, the new value is dropped, and only one worker
wake-up results — the first wait consumes the old value and a second wait
finds nothing pending. -/
theorem notify_set_without_overwrite (slot : NotifySlot) (v : Nat)
    (hp : slot.pending = true) :
    xTaskNotifyFromISR slot v = (slot, false) ∧
    (xTaskNotifyWait (xTaskNotifyFromISR slot v).1).1 = some slot.value ∧
    (xTaskNotifyWait (xTaskNotifyWait (xTaskNotifyFromISR slot v).1).2).1 = none := by
  unfold xTaskNotifyFromISR xTaskNotifyWait
  simp [hp]

/-- Claim C6 witness: posting 48 onto a slot already holding 49. -/
theorem notify_set_without_overwrite_witness :
    xTaskNotifyFromISR { pending := true, value := 49 } 48 =
      ({ pending := true, value := 49 }, false) :=
  (notify_set_without_overwrite { pending := true, value := 49 } 48 rfl).1

/-- Claim C7: toggle law. From a state with the LED flag false, the interrupt
handler computes the ON command byte; after the worker sends it successfully
and the receive callback processes the LED ON ACK text, the LED flag is true
and the next button press computes the OFF command byte. -/
theorem toggle_law (s : SysState) (hled : s.led_state = false)
    (hconn : s.client_connected = true) :
    isr_button_press_cmd s.led_state = LED_ON_CMD ∧
    (tcp_receive_msg_handler (RecvOutcome.ok LED_ON_ACK)
      (tcp_server_task_iteration false CyRslt.success
        (isr_button_press_cmd s.led_state) s).1 s.client_handle).1.led_state = true ∧
    isr_button_press_cmd
      (tcp_receive_msg_handler (RecvOutcome.ok LED_ON_ACK)
        (tcp_server_task_iteration false CyRslt.success
          (isr_button_press_cmd s.led_state) s).1 s.client_handle).1.led_state =
      LED_OFF_CMD := by
  have hcmd : isr_button_press_cmd s.led_state = LED_ON_CMD := by
    rw [hled]; rfl
  have hrecv : ∀ (t : SysState) (h : Nat),
      (tcp_receive_msg_handler (RecvOutcome.ok LED_ON_ACK) t h).1.led_state = true := by
    intro t h
    simp only [tcp_receive_msg_handler]
    rw [if_pos (by decide)]
  refine ⟨hcmd, hrecv _ _, ?_⟩
  rw [hrecv _ _]
  rfl

/-- Claim C7 witness: the toggle chain at the concrete connected state with
the LED flag false. -/
theorem toggle_law_witness :
    isr_button_press_cmd connectedState.led_state = LED_ON_CMD :=
  (toggle_law connectedState rfl rfl).1

/-- Claim C8: every iteration of the worker loop emits the interrupt re-enable
as its final effect on every path (send success, send failure, debounce
rejection, not connected); and when no client is connected a button press
leaves the state unchanged and emits only disable, debounce delay, and
re-enable — no send and no error effect. -/
theorem worker_rearms_every_path (gpioRead : Bool) (res : CyRslt) (cmd : Nat)
    (s : SysState) :
    (tcp_server_task_iteration gpioRead res cmd s).2.getLast? =
      some (Effect.enableButtonIrq true) ∧
    (s.client_connected = false →
      tcp_server_task_iteration gpioRead res cmd s =
        (s, [Effect.enableButtonIrq false, Effect.debounceDelay,
             Effect.enableButtonIrq true])) := by
  obtain ⟨led, conn, hnd, peer⟩ := s
  cases gpioRead <;> cases conn <;> cases res <;>
    refine ⟨rfl, fun h => ?_⟩ <;> first | rfl | exact Bool.noConfusion h

/-- Claim C8 witness: not-connected iteration from the initial state. -/
theorem worker_rearms_every_path_witness :
    (tcp_server_task_iteration false CyRslt.success LED_ON_CMD initState).2.getLast? =
      some (Effect.enableButtonIrq true) ∧
    tcp_server_task_iteration false CyRslt.success LED_ON_CMD initState =
      (initState, [Effect.enableButtonIrq false, Effect.debounceDelay,
                   Effect.enableButtonIrq true]) :=
  ⟨(worker_rearms_every_path false CyRslt.success LED_ON_CMD initState).1,
   (worker_rearms_every_path false CyRslt.success LED_ON_CMD initState).2 rfl⟩

/-- Claim C9: for a send failure whose code is neither success nor the
peer-closed code, the worker iteration returns the state completely unchanged
and emits exactly one send followed by one failure log — no disconnect, no
delete, no retry. -/
theorem transient_send_failure_frame (s : SysState) (cmd : Nat) (code : CyRslt)
    (hconn : s.client_connected = true)
    (h1 : code ≠ CyRslt.success) (h2 : code ≠ CyRslt.socketsClosed) :
    tcp_server_task_iteration false code cmd s =
      (s, [Effect.enableButtonIrq false, Effect.debounceDelay,
           Effect.send s.client_handle cmd, Effect.logSendFail code,
           Effect.enableButtonIrq true]) := by
  unfold tcp_server_task_iteration
  rw [if_pos rfl, if_pos hconn, if_neg h1, if_neg h2]

/-- Claim C9 witness: transient failure with error code 12 at the concrete
connected state. -/
theorem transient_send_failure_frame_witness :
    tcp_server_task_iteration false (CyRslt.err 12) LED_ON_CMD connectedState =
      (connectedState,
       [Effect.enableButtonIrq false, Effect.debounceDelay,
        Effect.send connectedState.client_handle LED_ON_CMD,
        Effect.logSendFail (CyRslt.err 12), Effect.enableButtonIrq true]) :=
  transient_send_failure_frame connectedState LED_ON_CMD (CyRslt.err 12) rfl
    (by decide) (by decide)

/-- Claim C10: the receive call passes the full buffer size as its length
argument, so `bytes_received` ranges up to `recvRequestLen = 20`; at that
maximum the NUL-terminator write index equals 20, which is not within the
bounds of the 20-byte message buffer — the write at the attainable maximum is
out of bounds. -/
theorem null_term_write_out_of_bounds :
    recvRequestLen = messageBufferSize ∧
    ¬ nullTermIndex recvRequestLen < messageBufferSize := by
  decide
